import Mathlib

/-!
# Verification of the locator-validation engine

Shallow embedding of `src/tools/locator-validation/check-locators.ts`:
the `check_locators_from_file` tool body (`checkLocators`) and its helper
`findAlternateLocators`.  JavaScript strings are modelled as Lean `String`,
JavaScript objects holding locator candidates as association lists in
insertion order (the order `Object.entries` / `Object.values` iterate), and
the imperative accumulation loops as `List.flatMap` / `List.filter`
pipelines.  The session driver, the file system and the JSON parser are
external collaborators; they are modelled by the outcomes the code observes
from them (`Session`, `FileOutcome`), and the run is instrumented with the
trace of session interactions it performs (`SessionEvent`).
-/

namespace CheckLocators

/-- `sub` is a prefix of `l`, character by character
(helper for the JavaScript `String.prototype.includes` model). -/
def charsStartsWith : List Char → List Char → Bool
  | _, [] => true
  | [], _ :: _ => false
  | a :: as, b :: bs => a == b && charsStartsWith as bs

/-- `sub` occurs contiguously somewhere in `l`
(helper for the JavaScript `String.prototype.includes` model). -/
def charsIncludes : List Char → List Char → Bool
  | [], sub => sub.isEmpty
  | a :: rest, sub => charsStartsWith (a :: rest) sub || charsIncludes rest sub

/-- JavaScript `s.includes(sub)`: substring containment. -/
def strIncludes (s sub : String) : Bool :=
  charsIncludes s.data sub.data

/-- JavaScript `s.toLowerCase()`, modelled per character. -/
def lowerStr (s : String) : String :=
  ⟨s.data.map Char.toLower⟩

/-- JavaScript `a || b` on strings: `a` when truthy (non-empty), else `b`. -/
def jsOr (a b : String) : String :=
  if a = "" then b else a

/-- One item of the locator file (interface `UserLocatorEntry`,
check-locators.ts lines 12-21). -/
structure UserLocatorEntry where
  pageName : String
  pageElementName : String
  LocatorStrategy : String
  Locators : String
  fieldName : String
  timestamp : String
  remarks : String
  AutoHeal : String
deriving Repr, DecidableEq

/-- One element record of the current-page snapshot, as consumed by
`findAlternateLocators`: the fields it reads (`text`, `contentDesc`,
`resourceId`, `tagName`) and the candidate map `locators`, kept as an
association list in the object's insertion order. -/
structure ElementNode where
  tagName : String
  text : String
  contentDesc : String
  resourceId : String
  locators : List (String × String)
deriving Repr, DecidableEq

/-- One emitted alternate `{ strategy, selector, tagName }`
(check-locators.ts line 146). -/
structure AlternateLocator where
  strategy : String
  selector : String
  tagName : String
deriving Repr, DecidableEq

/-- Line 150: `userLocator.fieldName || userLocator.remarks ||
userLocator.pageElementName`. -/
def targetText (u : UserLocatorEntry) : String :=
  jsOr u.fieldName (jsOr u.remarks u.pageElementName)

/-- Line 154: `element.text || element.contentDesc || element.resourceId`. -/
def elementText (e : ElementNode) : String :=
  jsOr e.text (jsOr e.contentDesc e.resourceId)

/-- The guard of line 155: `elementText && targetText &&
elementText.toLowerCase().includes(targetText.toLowerCase())`. -/
def textSimMatch (u : UserLocatorEntry) (e : ElementNode) : Bool :=
  !(elementText e == "") && !(targetText u == "") &&
    strIncludes (lowerStr (elementText e)) (lowerStr (targetText u))

/-- Lines 155-164: on a text-similarity match, push one alternate per entry of
`element.locators`, in entry order. -/
def textSimAlternates (u : UserLocatorEntry) (e : ElementNode) :
    List AlternateLocator :=
  if textSimMatch u e then
    e.locators.map (fun p => ⟨p.1, p.2, e.tagName⟩)
  else []

/-- Lines 166-179: for each candidate value equal to `userLocator.Locators`,
push one alternate per entry of `element.locators` whose strategy differs
from `userLocator.LocatorStrategy`. -/
def exactReuseAlternates (u : UserLocatorEntry) (e : ElementNode) :
    List AlternateLocator :=
  e.locators.flatMap (fun v =>
    if v.2 == u.Locators then
      (e.locators.filter (fun p => !(p.1 == u.LocatorStrategy))).map
        (fun p => ⟨p.1, p.2, e.tagName⟩)
    else [])

/-- The `alternates` array accumulated by the element loop of lines 152-180:
per element, the text-similarity pushes happen before the exact-reuse pushes,
and elements are visited in snapshot order. -/
def rawAlternates (u : UserLocatorEntry) (elems : List ElementNode) :
    List AlternateLocator :=
  elems.flatMap (fun e => textSimAlternates u e ++ exactReuseAlternates u e)

/-- Line 184's comparison: `t.strategy === item.strategy && t.selector ===
item.selector`. -/
def altKeyEq (t item : AlternateLocator) : Bool :=
  t.strategy == item.strategy && t.selector == item.selector

/-- Lines 183-185: `self.filter((item, index, self) => index ===
self.findIndex(t => altKeyEq t item))`, the keep-first-occurrence
deduplication. -/
def dedupeAlternates (self : List AlternateLocator) : List AlternateLocator :=
  (self.enum.filter
    (fun p => self.findIdx (fun t => altKeyEq t p.2) == p.1)).map Prod.snd

/-- `findAlternateLocators` (lines 143-188): accumulate, deduplicate, cap
at 5. -/
def findAlternateLocators (u : UserLocatorEntry)
    (allCurrentPageElements : List ElementNode) : List AlternateLocator :=
  (dedupeAlternates (rawAlternates u allCurrentPageElements)).take 5

/-- Interface `ValidationResult` (lines 23-31): the optional fields
`alternateLocators` and `error` are `none` exactly when the source leaves
them `undefined`. -/
structure ValidationResult where
  pageName : String
  pageElementName : String
  primaryStrategy : String
  primaryLocator : String
  found : Bool
  alternateLocators : Option (List AlternateLocator)
  error : Option String
deriving Repr, DecidableEq

/-- The session collaborator, modelled by the outcomes the code observes:
`findElementOutcome strategy selector` is what `driver.findElement` does for
that pair (`Except.error msg` carries `err.toString()` of the rejection), and
`pageElements` is the element universe `generateAllElementLocators` produces
from `driver.getPageSource()` (the generator lives in
`src/locators/generate-all-locators.ts`, outside the validator; it is
abstracted by the element list it returns). -/
structure Session where
  findElementOutcome : String → String → Except String Unit
  pageElements : List ElementNode

/-- Session interactions the run can perform, recorded as a trace:
`getPageSource` is `driver.getPageSource()` (the snapshot capture, line 63),
`getAutomationName` the `driver.caps.automationName` read (line 64), and
`findElement s l` one `driver.findElement(s, l)` call (line 77). -/
inductive SessionEvent where
  | getPageSource
  | getAutomationName
  | findElement (strategy selector : String)
deriving Repr, DecidableEq

/-- What the validator observes from the file system and the JSON parser
(lines 50-60): the file is absent; its body fails `JSON.parse` (with the
parser's message); it parses but `Array.isArray` rejects it; or it parses to
an array of entries. -/
inductive FileOutcome where
  | missing (path : String)
  | invalidJson (msg : String)
  | notArray
  | array (entries : List UserLocatorEntry)

/-- The per-entry body of the loop of lines 74-103: attempt primary
resolution; on success record `found: true` with no alternates and no error,
on failure record `found: false` with the computed alternates and the
error's string. -/
def validateEntry (s : Session) (u : UserLocatorEntry) : ValidationResult :=
  match s.findElementOutcome u.LocatorStrategy u.Locators with
  | .ok _ =>
      ⟨u.pageName, u.pageElementName, u.LocatorStrategy, u.Locators,
        true, none, none⟩
  | .error err =>
      ⟨u.pageName, u.pageElementName, u.LocatorStrategy, u.Locators,
        false, some (findAlternateLocators u s.pageElements), some err⟩

/-- Projection of a found result into the `foundLocators` summary
(lines 117-122). -/
structure FoundLocatorSummary where
  pageName : String
  pageElementName : String
  strategy : String
  selector : String
deriving Repr, DecidableEq

/-- Projection of a missing result into the `missingLocators` summary
(lines 123-130). -/
structure MissingLocatorSummary where
  pageName : String
  pageElementName : String
  primaryStrategy : String
  primaryLocator : String
  alternateLocators : Option (List AlternateLocator)
  error : Option String
deriving Repr, DecidableEq

/-- The aggregate report serialized on lines 109-135. -/
structure ValidationReport where
  totalChecked : Nat
  foundCount : Nat
  missingCount : Nat
  foundLocators : List FoundLocatorSummary
  missingLocators : List MissingLocatorSummary
  message : String
deriving Repr, DecidableEq

/-- Lines 105-135: split the results into found and missing and build the
report. -/
def mkReport (results : List ValidationResult) : ValidationReport :=
  let foundLocators := results.filter (fun r => r.found)
  let missingLocators := results.filter (fun r => !r.found)
  { totalChecked := results.length
    foundCount := foundLocators.length
    missingCount := missingLocators.length
    foundLocators := foundLocators.map (fun r =>
      ⟨r.pageName, r.pageElementName, r.primaryStrategy, r.primaryLocator⟩)
    missingLocators := missingLocators.map (fun r =>
      ⟨r.pageName, r.pageElementName, r.primaryStrategy, r.primaryLocator,
        r.alternateLocators, r.error⟩)
    message := "Checked " ++ toString results.length ++ " locators: " ++
      toString foundLocators.length ++ " found, " ++
      toString missingLocators.length ++ " missing" }

/-- The `execute` body of `check_locators_from_file` (lines 42-139), given an
active session, paired with the trace of session interactions it performs.
File-shape failures throw before any session call; the thrown messages are
re-wrapped by the outer catch of line 137 (`Failed to check locators: ` +
message).  With an array file body the code captures the snapshot once
(page-source read and automation-name read), then resolves each entry in
order; per-entry failures are caught locally and never abort the batch. -/
def checkLocatorsRun (s : Session) (file : FileOutcome) :
    Except String ValidationReport × List SessionEvent :=
  match file with
  | .missing p =>
      (.error ("Failed to check locators: Locator file not found: " ++ p), [])
  | .invalidJson msg =>
      (.error ("Failed to check locators: " ++ msg), [])
  | .notArray =>
      (.error ("Failed to check locators: " ++
        "Locator file must contain an array of locator objects"), [])
  | .array entries =>
      (.ok (mkReport (entries.map (validateEntry s))),
        SessionEvent.getPageSource :: SessionEvent.getAutomationName ::
          entries.map (fun u => SessionEvent.findElement u.LocatorStrategy u.Locators))

/-- Recognizer for snapshot-capture events in a trace. -/
def isPageSourceRead : SessionEvent → Bool
  | .getPageSource => true
  | _ => false

/-- Recognizer for primary-resolution events in a trace. -/
def isFindElementCall : SessionEvent → Bool
  | .findElement _ _ => true
  | _ => false

/-- First non-empty string of a list, used to phrase the fallback chains of
`targetText` and `elementText` spec-side. -/
def firstNonEmpty : List String → Option String
  | [] => none
  | s :: rest => if s = "" then firstNonEmpty rest else some s

/-- The matching condition claimed by the specification for text similarity,
read literally: the node's `text`, `contentDesc`, or `resourceId`
case-insensitively contains the target label (a disjunction over the three
fields). -/
def claimTextSimMatch (u : UserLocatorEntry) (e : ElementNode) : Bool :=
  strIncludes (lowerStr e.text) (lowerStr (targetText u)) ||
  strIncludes (lowerStr e.contentDesc) (lowerStr (targetText u)) ||
  strIncludes (lowerStr e.resourceId) (lowerStr (targetText u))

/-! ## Helper lemmas -/

theorem altKeyEq_refl (a : AlternateLocator) : altKeyEq a a = true := by
  simp [altKeyEq]

theorem altKeyEq_iff (t a : AlternateLocator) :
    altKeyEq t a = true ↔ t.strategy = a.strategy ∧ t.selector = a.selector := by
  simp [altKeyEq]

theorem altKeyEq_congr {b a : AlternateLocator} (h : altKeyEq b a = true)
    (t : AlternateLocator) : altKeyEq t b = altKeyEq t a := by
  rw [altKeyEq_iff] at h
  simp [altKeyEq, h.1, h.2]

theorem findIdx_congr {α : Type} {p q : α → Bool} (h : ∀ x, p x = q x) :
    ∀ l : List α, l.findIdx p = l.findIdx q := by
  intro l
  induction l with
  | nil => rfl
  | cons a l ih => simp [List.findIdx_cons, h a, ih]

theorem enum_pairwise_lt {α : Type} (l : List α) :
    l.enum.Pairwise (fun p q => p.1 < q.1) := by
  have h1 : (l.enum.map Prod.fst).Pairwise (· < ·) := by
    rw [List.enum_eq_enumFrom, List.enumFrom_map_fst]
    exact List.pairwise_lt_range' 0 l.length 1
  exact (List.pairwise_map).1 h1

theorem mem_dedupe_filter {l : List AlternateLocator} {p : Nat × AlternateLocator}
    (hp : p ∈ l.enum.filter
      (fun p => l.findIdx (fun t => altKeyEq t p.2) == p.1)) :
    l.findIdx (fun t => altKeyEq t p.2) = p.1 := by
  have := (List.mem_filter.1 hp).2
  simpa using this

/-- The JavaScript keep-first-occurrence `filter` preserves the order of the
array it deduplicates. -/
theorem dedupe_sublist (l : List AlternateLocator) :
    (dedupeAlternates l).Sublist l := by
  have h := (List.filter_sublist (l := l.enum)
    (p := fun p => l.findIdx (fun t => altKeyEq t p.2) == p.1)).map Prod.snd
  rw [List.enum_eq_enumFrom, List.enumFrom_map_snd] at h
  exact h

/-- No two survivors of the deduplication share a `(strategy, selector)`
pair. -/
theorem dedupe_pairwise (l : List AlternateLocator) :
    (dedupeAlternates l).Pairwise
      (fun a b => ¬ (a.strategy = b.strategy ∧ a.selector = b.selector)) := by
  have h1 : (l.enum.filter
      (fun p => l.findIdx (fun t => altKeyEq t p.2) == p.1)).Pairwise
      (fun p q => p.1 < q.1) :=
    List.Pairwise.sublist (List.filter_sublist _) (enum_pairwise_lt l)
  have h2 : (l.enum.filter
      (fun p => l.findIdx (fun t => altKeyEq t p.2) == p.1)).Pairwise
      (fun p q => ¬ (p.2.strategy = q.2.strategy ∧ p.2.selector = q.2.selector)) := by
    refine h1.imp_of_mem ?_
    intro p q hp hq hlt hk
    have hip := mem_dedupe_filter hp
    have hiq := mem_dedupe_filter hq
    have hpq : ∀ t, altKeyEq t p.2 = altKeyEq t q.2 := by
      intro t
      simp [altKeyEq, hk.1, hk.2]
    rw [findIdx_congr hpq l] at hip
    rw [hip] at hiq
    exact Nat.lt_irrefl _ (hiq ▸ hlt)
  exact (List.pairwise_map).2 h2

/-- The survivor chosen for each `(strategy, selector)` key is the key's
first occurrence in the input array. -/
theorem dedupe_keeps_first {l : List AlternateLocator} {a : AlternateLocator}
    (ha : a ∈ l) :
    ∃ h : l.findIdx (fun t => altKeyEq t a) < l.length,
      l.get ⟨l.findIdx (fun t => altKeyEq t a), h⟩ ∈ dedupeAlternates l ∧
      altKeyEq (l.get ⟨l.findIdx (fun t => altKeyEq t a), h⟩) a = true := by
  have hex : ∃ x ∈ l, altKeyEq x a := ⟨a, ha, altKeyEq_refl a⟩
  have hlt : l.findIdx (fun t => altKeyEq t a) < l.length :=
    List.findIdx_lt_length_of_exists hex
  refine ⟨hlt, ?_, ?_⟩
  · have hb : altKeyEq (l.get ⟨l.findIdx (fun t => altKeyEq t a), hlt⟩) a = true := by
      have := List.findIdx_getElem (p := fun t => altKeyEq t a) (w := hlt)
      simpa [List.get_eq_getElem] using this
    have hmem : (l.findIdx (fun t => altKeyEq t a),
        l.get ⟨l.findIdx (fun t => altKeyEq t a), hlt⟩) ∈ l.enum := by
      have hlen : l.findIdx (fun t => altKeyEq t a) < l.enum.length := by
        simpa [List.enum_eq_enumFrom] using hlt
      have := List.getElem_enumFrom l 0 (l.findIdx (fun t => altKeyEq t a))
        (by simpa [List.enum_eq_enumFrom] using hlen)
      have h2 : l.enum.get ⟨l.findIdx (fun t => altKeyEq t a), hlen⟩ =
          (l.findIdx (fun t => altKeyEq t a),
            l.get ⟨l.findIdx (fun t => altKeyEq t a), hlt⟩) := by
        simp [List.enum_eq_enumFrom, List.get_eq_getElem]
      rw [← h2]
      exact List.get_mem _ _ _
    refine List.mem_map.2 ⟨(l.findIdx (fun t => altKeyEq t a),
      l.get ⟨l.findIdx (fun t => altKeyEq t a), hlt⟩), ?_, rfl⟩
    refine List.mem_filter.2 ⟨hmem, ?_⟩
    have hpq : ∀ t, altKeyEq t (l.get ⟨l.findIdx (fun t => altKeyEq t a), hlt⟩) =
        altKeyEq t a := altKeyEq_congr hb
    simp only []
    rw [findIdx_congr hpq l]
    simp
  · have := List.findIdx_getElem (p := fun t => altKeyEq t a) (w := hlt)
    simpa [List.get_eq_getElem] using this

/-- Membership in the text-similarity emissions of one element. -/
theorem mem_textSimAlternates (u : UserLocatorEntry) (e : ElementNode)
    (a : AlternateLocator) :
    a ∈ textSimAlternates u e ↔
      textSimMatch u e = true ∧ (a.strategy, a.selector) ∈ e.locators ∧
        a.tagName = e.tagName := by
  unfold textSimAlternates
  by_cases h : textSimMatch u e
  · simp only [h, if_true, List.mem_map, true_and]
    constructor
    · rintro ⟨p, hp, rfl⟩
      exact ⟨hp, rfl⟩
    · rintro ⟨hp, ht⟩
      refine ⟨(a.strategy, a.selector), hp, ?_⟩
      cases a
      simp_all
  · simp [h]

/-- Membership in the exact-selector-reuse emissions of one element. -/
theorem mem_exactReuseAlternates (u : UserLocatorEntry) (e : ElementNode)
    (a : AlternateLocator) :
    a ∈ exactReuseAlternates u e ↔
      u.Locators ∈ e.locators.map Prod.snd ∧
        (a.strategy, a.selector) ∈ e.locators ∧
        a.strategy ≠ u.LocatorStrategy ∧ a.tagName = e.tagName := by
  unfold exactReuseAlternates
  rw [List.mem_flatMap]
  constructor
  · rintro ⟨v, hv, hmem⟩
    by_cases hveq : v.2 == u.Locators
    · rw [if_pos hveq] at hmem
      obtain ⟨p, hp, rfl⟩ := List.mem_map.1 hmem
      have hp2 := List.mem_filter.1 hp
      refine ⟨?_, hp2.1, ?_, rfl⟩
      · exact List.mem_map.2 ⟨v, hv, (eq_of_beq hveq)⟩
      · simpa using hp2.2
    · rw [if_neg hveq] at hmem
      exact absurd hmem (List.not_mem_nil _)
  · rintro ⟨hsel, hp, hs, ht⟩
    obtain ⟨v, hv, hveq⟩ := List.mem_map.1 hsel
    refine ⟨v, hv, ?_⟩
    rw [if_pos (by simp [hveq])]
    refine List.mem_map.2 ⟨(a.strategy, a.selector), ?_, ?_⟩
    · exact List.mem_filter.2 ⟨hp, by simp [hs]⟩
    · cases a
      simp_all

theorem firstNonEmpty_three (a b c : String) :
    firstNonEmpty [a, b, c] =
      if jsOr a (jsOr b c) = "" then none else some (jsOr a (jsOr b c)) := by
  by_cases ha : a = "" <;> by_cases hb : b = "" <;> by_cases hc : c = "" <;>
    simp [firstNonEmpty, jsOr, ha, hb, hc]

/-! ## Claims -/

/-- Concrete entry for the C1 counterexample: the target label resolves to
`fieldName = "Submit"`. -/
def uC1ex : UserLocatorEntry :=
  ⟨"LoginPage", "submitBtn", "id", "com.app:id/missing", "Submit", "", "", ""⟩

/-- Concrete node for the C1 counterexample: `text` is non-empty and does not
contain the label, while `contentDesc` does contain it. -/
def eC1ex : ElementNode :=
  ⟨"android.widget.Button", "foo", "Submit", "", [("xpath", "//btn")]⟩

/-- C1 counterexample: the claim's disjunctive condition holds for this node
(`contentDesc` contains the label case-insensitively), yet the code does not
match it by text similarity — the code only inspects the first non-empty of
`text`, `contentDesc`, `resourceId`, here `text = "foo"` — and the entry gets
no alternates at all. -/
theorem C1_counterexample :
    claimTextSimMatch uC1ex eC1ex = true ∧
    textSimMatch uC1ex eC1ex = false ∧
    findAlternateLocators uC1ex [eC1ex] = [] :=
  ⟨by decide, by decide, by decide⟩

/-- C1 (amended): an Element Node matches by text similarity iff the first
non-empty of its `text`, `contentDesc`, `resourceId` (in that order) exists
and case-insensitively contains the target label, where the target label is
the first non-empty of `fieldName`, `remarks`, `pageElementName` (and must
exist). -/
theorem C1_text_similarity_amended (u : UserLocatorEntry) (e : ElementNode) :
    textSimMatch u e = true ↔
      ∃ d t, firstNonEmpty [e.text, e.contentDesc, e.resourceId] = some d ∧
        firstNonEmpty [u.fieldName, u.remarks, u.pageElementName] = some t ∧
        strIncludes (lowerStr d) (lowerStr t) = true := by
  rw [firstNonEmpty_three, firstNonEmpty_three]
  by_cases hd : jsOr e.text (jsOr e.contentDesc e.resourceId) = "" <;>
    by_cases ht : jsOr u.fieldName (jsOr u.remarks u.pageElementName) = "" <;>
      simp [textSimMatch, elementText, targetText, hd, ht]

/-- Concrete entry for the C2 counterexample: the user tried strategy `id`. -/
def uC2ex : UserLocatorEntry :=
  ⟨"p", "el", "id", "zz", "Submit", "", "", ""⟩

/-- Concrete node for the C2 counterexample: it matches by text similarity
and its only candidate uses the very strategy the user tried. -/
def eC2ex : ElementNode :=
  ⟨"Button", "Submit", "", "", [("id", "y")]⟩

/-- C2 counterexample: this node matches the failed entry by text similarity,
and the single alternate emitted for it carries the strategy the user already
tried (`id`) — the text-similarity branch does not exclude the tried
strategy, so the tried strategy does appear among the node's emitted
alternates. -/
theorem C2_counterexample :
    textSimMatch uC2ex eC2ex = true ∧
    findAlternateLocators uC2ex [eC2ex] = [⟨"id", "y", "Button"⟩] ∧
    uC2ex.LocatorStrategy = "id" :=
  ⟨by decide, by decide, rfl⟩

/-- C2 (amended): only the exact-selector-reuse emissions exclude the tried
strategy — they are exactly the node's candidate pairs whose strategy differs
from the tried one, available when the tried selector equals one of the
node's candidate selectors; the text-similarity emissions of a matching node
are all of its candidate pairs, the tried strategy included when present. -/
theorem C2_emitted_alternates_amended (u : UserLocatorEntry) (e : ElementNode)
    (a : AlternateLocator) :
    (a ∈ exactReuseAlternates u e ↔
      u.Locators ∈ e.locators.map Prod.snd ∧
        (a.strategy, a.selector) ∈ e.locators ∧
        a.strategy ≠ u.LocatorStrategy ∧ a.tagName = e.tagName) ∧
    (a ∈ textSimAlternates u e ↔
      textSimMatch u e = true ∧ (a.strategy, a.selector) ∈ e.locators ∧
        a.tagName = e.tagName) :=
  ⟨mem_exactReuseAlternates u e a, mem_textSimAlternates u e a⟩

/-- C10: when `fieldName`, `remarks` and `pageElementName` are all empty, the
text-similarity heuristic matches no node, and the alternates come solely
from the exact-selector-reuse heuristic. -/
theorem C10_empty_labels_only_exact_reuse (u : UserLocatorEntry)
    (hf : u.fieldName = "") (hr : u.remarks = "") (hp : u.pageElementName = "")
    (elems : List ElementNode) :
    (∀ e, textSimAlternates u e = []) ∧
    findAlternateLocators u elems =
      (dedupeAlternates (elems.flatMap
        (fun e => exactReuseAlternates u e))).take 5 := by
  have htarget : targetText u = "" := by simp [targetText, jsOr, hf, hr, hp]
  have hmatch : ∀ e, textSimMatch u e = false := by
    intro e
    simp [textSimMatch, htarget]
  have halts : ∀ e, textSimAlternates u e = [] := by
    intro e
    simp [textSimAlternates, hmatch e]
  refine ⟨halts, ?_⟩
  have hfun : (fun e => textSimAlternates u e ++ exactReuseAlternates u e) =
      fun e => exactReuseAlternates u e :=
    funext (fun e => by rw [halts e]; rfl)
  simp only [findAlternateLocators, rawAlternates, hfun]

/-- Concrete entry for the C10 witness: all three label fields empty, the
tried selector equal to one of the node's candidates. -/
def uC10ex : UserLocatorEntry :=
  ⟨"p", "", "id", "v1", "", "", "", ""⟩

/-- Concrete node for the C10 witness. -/
def eC10ex : ElementNode :=
  ⟨"V", "txt", "", "", [("id", "v1"), ("xpath", "//v")]⟩

/-- Witness for C10 at a concrete entry and snapshot. -/
theorem C10_empty_labels_only_exact_reuse_witness :
    textSimAlternates uC10ex eC10ex = [] ∧
    findAlternateLocators uC10ex [eC10ex] =
      (dedupeAlternates ([eC10ex].flatMap
        (fun e => exactReuseAlternates uC10ex e))).take 5 := by
  have h := C10_empty_labels_only_exact_reuse uC10ex rfl rfl rfl [eC10ex]
  exact ⟨h.1 eC10ex, h.2⟩

/-- Concrete entry for the C3 counterexample: the tried selector `v1` is one
of the node's candidate selectors, strategy `s1` was tried. -/
def uC3ex : UserLocatorEntry :=
  ⟨"p", "", "s1", "v1", "", "", "", ""⟩

/-- Concrete node for the C3 counterexample: seven candidate strategies, so
the six other strategies exceed the cap of five. -/
def eC3ex : ElementNode :=
  ⟨"V", "", "", "",
    [("s1", "v1"), ("s2", "v2"), ("s3", "v3"), ("s4", "v4"), ("s5", "v5"),
      ("s6", "v6"), ("s7", "v7")]⟩

/-- C3 counterexample: the entry's selector is byte-identical to a candidate
selector of the node, `s7` is one of the node's other candidate strategies,
yet `s7` does not appear among the returned alternates — the top-5 cap
truncates it. -/
theorem C3_counterexample :
    uC3ex.Locators ∈ eC3ex.locators.map Prod.snd ∧
    ("s7", "v7") ∈ eC3ex.locators ∧
    "s7" ≠ uC3ex.LocatorStrategy ∧
    findAlternateLocators uC3ex [eC3ex] =
      [⟨"s2", "v2", "V"⟩, ⟨"s3", "v3", "V"⟩, ⟨"s4", "v4", "V"⟩,
        ⟨"s5", "v5", "V"⟩, ⟨"s6", "v6", "V"⟩] ∧
    ((findAlternateLocators uC3ex [eC3ex]).map
      AlternateLocator.strategy).contains "s7" = false := by
  decide

/-- C3 (amended): when a failed entry's `Locators` string is byte-identical
to a candidate selector of some node of the snapshot, every other candidate
strategy of that node appears among the deduplicated alternates computed
before the top-5 cap; it appears among the returned alternates whenever the
deduplicated list does not exceed the cap. -/
theorem C3_exact_reuse_amended (u : UserLocatorEntry) (elems : List ElementNode)
    (e : ElementNode) (he : e ∈ elems)
    (hsel : u.Locators ∈ e.locators.map Prod.snd)
    (p : String × String) (hp : p ∈ e.locators) (hs : p.1 ≠ u.LocatorStrategy) :
    (∃ b, b ∈ dedupeAlternates (rawAlternates u elems) ∧
      b.strategy = p.1 ∧ b.selector = p.2) ∧
    ((dedupeAlternates (rawAlternates u elems)).length ≤ 5 →
      ∃ b, b ∈ findAlternateLocators u elems ∧
        b.strategy = p.1 ∧ b.selector = p.2) := by
  have hmem : (⟨p.1, p.2, e.tagName⟩ : AlternateLocator) ∈ rawAlternates u elems := by
    refine List.mem_flatMap.2 ⟨e, he, ?_⟩
    refine List.mem_append.2 (Or.inr ?_)
    exact (mem_exactReuseAlternates u e ⟨p.1, p.2, e.tagName⟩).2
      ⟨hsel, by simpa using hp, hs, rfl⟩
  obtain ⟨h, hkeep, hkey⟩ := dedupe_keeps_first hmem
  have hb := (altKeyEq_iff _ _).1 hkey
  refine ⟨⟨_, hkeep, hb.1, hb.2⟩, ?_⟩
  intro hlen
  refine ⟨_, ?_, hb.1, hb.2⟩
  simp only [findAlternateLocators]
  rw [List.take_of_length_le hlen]
  exact hkeep

/-- Concrete entry for the C3 witness. -/
def uC3w : UserLocatorEntry :=
  ⟨"p", "", "s1", "w1", "", "", "", ""⟩

/-- Concrete node for the C3 witness: two strategies, tried `s1`, so the
other strategy `s2` must survive to the returned alternates. -/
def eC3w : ElementNode :=
  ⟨"W", "", "", "", [("s1", "w1"), ("s2", "w2")]⟩

/-- Witness for the amended C3 at a concrete entry and snapshot. -/
theorem C3_exact_reuse_amended_witness :
    ∃ b, b ∈ findAlternateLocators uC3w [eC3w] ∧
      b.strategy = "s2" ∧ b.selector = "w2" :=
  (C3_exact_reuse_amended uC3w [eC3w] eC3w (by decide) (by decide)
    ("s2", "w2") (by decide) (by decide)).2 (by decide)

/-- C4: the returned alternates list has length at most 5 and contains no two
entries with the same `(strategy, selector)` pair. -/
theorem C4_alternates_capped_and_distinct (u : UserLocatorEntry)
    (elems : List ElementNode) :
    (findAlternateLocators u elems).length ≤ 5 ∧
    (findAlternateLocators u elems).Pairwise
      (fun a b => ¬ (a.strategy = b.strategy ∧ a.selector = b.selector)) := by
  constructor
  · simp only [findAlternateLocators, List.length_take]
    exact Nat.min_le_left _ _
  · simp only [findAlternateLocators]
    exact List.Pairwise.sublist (List.take_sublist _ _) (dedupe_pairwise _)

/-- C5: the output is the keep-first deduplication of the per-element
emissions (text-similarity pushes before exact-reuse pushes within one
element, elements in snapshot encounter order) capped at 5; the
deduplication output is a sublist of the raw emission order (so first-seen
order is preserved), and for every raw emission the survivor of its
`(strategy, selector)` key is the key's first-seen occurrence. -/
theorem C5_dedupe_first_seen (u : UserLocatorEntry) (elems : List ElementNode) :
    findAlternateLocators u elems =
      (dedupeAlternates (elems.flatMap
        (fun e => textSimAlternates u e ++ exactReuseAlternates u e))).take 5 ∧
    (dedupeAlternates (rawAlternates u elems)).Sublist (rawAlternates u elems) ∧
    (∀ a, a ∈ rawAlternates u elems →
      ∃ h : (rawAlternates u elems).findIdx (fun t => altKeyEq t a) <
          (rawAlternates u elems).length,
        (rawAlternates u elems).get
            ⟨(rawAlternates u elems).findIdx (fun t => altKeyEq t a), h⟩ ∈
          dedupeAlternates (rawAlternates u elems) ∧
        altKeyEq ((rawAlternates u elems).get
            ⟨(rawAlternates u elems).findIdx (fun t => altKeyEq t a), h⟩) a =
          true) :=
  ⟨rfl, dedupe_sublist _, fun _ ha => dedupe_keeps_first ha⟩

/-- Concrete entry for the C5 witness. -/
def uC5ex : UserLocatorEntry :=
  ⟨"p", "el", "xpath", "nope", "Login", "", "", ""⟩

/-- Concrete node for the C5 witness: matches by text similarity and emits
one alternate. -/
def eC5ex : ElementNode :=
  ⟨"Btn", "Login", "", "", [("id", "k")]⟩

/-- Witness for C5 at a concrete entry, snapshot and raw emission. -/
theorem C5_dedupe_first_seen_witness :
    ∃ h : (rawAlternates uC5ex [eC5ex]).findIdx
        (fun t => altKeyEq t ⟨"id", "k", "Btn"⟩) <
        (rawAlternates uC5ex [eC5ex]).length,
      (rawAlternates uC5ex [eC5ex]).get
          ⟨(rawAlternates uC5ex [eC5ex]).findIdx
            (fun t => altKeyEq t ⟨"id", "k", "Btn"⟩), h⟩ ∈
        dedupeAlternates (rawAlternates uC5ex [eC5ex]) ∧
      altKeyEq ((rawAlternates uC5ex [eC5ex]).get
          ⟨(rawAlternates uC5ex [eC5ex]).findIdx
            (fun t => altKeyEq t ⟨"id", "k", "Btn"⟩), h⟩) ⟨"id", "k", "Btn"⟩ =
        true :=
  (C5_dedupe_first_seen uC5ex [eC5ex]).2.2 ⟨"id", "k", "Btn"⟩ (by decide)

/-- C6: an entry whose primary resolution succeeds yields a result with
`found = true`, no alternates and no error; one whose resolution fails
yields `found = false` with the computed alternates and the original
resolution error message; and a run over an array file body reports exactly
these per-entry results. -/
theorem C6_per_entry_results (s : Session) (u : UserLocatorEntry) :
    (s.findElementOutcome u.LocatorStrategy u.Locators = Except.ok () →
      validateEntry s u =
        ⟨u.pageName, u.pageElementName, u.LocatorStrategy, u.Locators,
          true, none, none⟩) ∧
    (∀ msg,
      s.findElementOutcome u.LocatorStrategy u.Locators = Except.error msg →
      validateEntry s u =
        ⟨u.pageName, u.pageElementName, u.LocatorStrategy, u.Locators,
          false, some (findAlternateLocators u s.pageElements), some msg⟩) ∧
    (∀ entries, (checkLocatorsRun s (.array entries)).1 =
      Except.ok (mkReport (entries.map (validateEntry s)))) := by
  refine ⟨?_, ?_, fun entries => rfl⟩
  · intro h
    simp [validateEntry, h]
  · intro msg h
    simp [validateEntry, h]

/-- Session whose resolutions all succeed, for the C6 witness. -/
def sessC6ok : Session :=
  ⟨fun _ _ => Except.ok (), []⟩

/-- Session whose resolutions all fail, for the C6 witness. -/
def sessC6err : Session :=
  ⟨fun _ _ => Except.error "no such element", [⟨"T", "f", "", "", [("id", "z")]⟩]⟩

/-- Concrete entry for the C6 witness. -/
def uC6ex : UserLocatorEntry :=
  ⟨"pg", "el", "id", "sel", "f", "", "", ""⟩

/-- Witness for C6: both the success branch and the failure branch at a
concrete session and entry. -/
theorem C6_per_entry_results_witness :
    validateEntry sessC6ok uC6ex =
      ⟨"pg", "el", "id", "sel", true, none, none⟩ ∧
    validateEntry sessC6err uC6ex =
      ⟨"pg", "el", "id", "sel", false,
        some (findAlternateLocators uC6ex sessC6err.pageElements),
        some "no such element"⟩ :=
  ⟨(C6_per_entry_results sessC6ok uC6ex).1 rfl,
    (C6_per_entry_results sessC6err uC6ex).2.1 "no such element" rfl⟩

/-- Splitting a list by a predicate and its negation preserves the length. -/
theorem filter_length_split {α : Type} (p : α → Bool) (l : List α) :
    (l.filter p).length + (l.filter (fun a => !(p a))).length = l.length :=
  (List.length_eq_length_filter_add p).symm

/-- C7: a run over an array file body never aborts on a per-entry resolution
failure: it returns a report whose `totalChecked` equals the number of input
entries, with `foundCount + missingCount = totalChecked` and one summary line
per entry across the found and missing groups. -/
theorem C7_batch_not_aborted (s : Session) (entries : List UserLocatorEntry) :
    ∃ r, (checkLocatorsRun s (.array entries)).1 = Except.ok r ∧
      r.totalChecked = entries.length ∧
      r.foundCount + r.missingCount = r.totalChecked ∧
      r.foundLocators.length + r.missingLocators.length = entries.length := by
  refine ⟨mkReport (entries.map (validateEntry s)), rfl, ?_, ?_, ?_⟩
  · simp [mkReport]
  · simpa [mkReport] using
      filter_length_split (fun r : ValidationResult => r.found)
        (entries.map (validateEntry s))
  · simpa [mkReport] using
      filter_length_split (fun r : ValidationResult => r.found)
        (entries.map (validateEntry s))

/-- C8: a missing file, an unparsable body, or a parsed body that is not an
array makes the call fail with an error, with an empty session-interaction
trace (no page-source read, no element resolution) and no results. -/
theorem C8_file_errors_fail_fast (s : Session) (p msg : String) :
    checkLocatorsRun s (.missing p) =
      (Except.error ("Failed to check locators: Locator file not found: " ++ p),
        []) ∧
    checkLocatorsRun s (.invalidJson msg) =
      (Except.error ("Failed to check locators: " ++ msg), []) ∧
    checkLocatorsRun s .notArray =
      (Except.error
        "Failed to check locators: Locator file must contain an array of locator objects",
        []) :=
  ⟨rfl, rfl, rfl⟩

/-- Session for the C9 counterexample: every resolution succeeds. -/
def sessC9ex : Session :=
  ⟨fun _ _ => Except.ok (), []⟩

/-- Concrete entry for the C9 counterexample. -/
def uC9ex : UserLocatorEntry :=
  ⟨"pg", "el", "id", "x", "", "", "", ""⟩

/-- C9 counterexample: in a run whose single entry resolves successfully
(the report counts one found, zero missing, so no entry's primary resolution
ever failed), the page source is still read — as the first session
interaction, before the resolution attempt — so the snapshot is not captured
"only after some entry's primary resolution has failed". -/
theorem C9_counterexample :
    (checkLocatorsRun sessC9ex (.array [uC9ex])).2 =
      [SessionEvent.getPageSource, SessionEvent.getAutomationName,
        SessionEvent.findElement "id" "x"] ∧
    (checkLocatorsRun sessC9ex (.array [uC9ex])).1 =
      Except.ok (mkReport [⟨"pg", "el", "id", "x", true, none, none⟩]) ∧
    (mkReport [⟨"pg", "el", "id", "x", true, none, none⟩]).foundCount = 1 ∧
    (mkReport [⟨"pg", "el", "id", "x", true, none, none⟩]).missingCount = 0 :=
  ⟨rfl, rfl, rfl, rfl⟩

/-- C9 (amended): a run over an array file body captures exactly one
snapshot, unconditionally, before any entry's primary resolution is
attempted (whether or not any resolution fails); runs rejected by the file
checks capture none; so at most one snapshot is captured per run. -/
theorem C9_snapshot_amended (s : Session) (entries : List UserLocatorEntry)
    (p msg : String) :
    (checkLocatorsRun s (.array entries)).2 =
      SessionEvent.getPageSource :: SessionEvent.getAutomationName ::
        entries.map (fun u =>
          SessionEvent.findElement u.LocatorStrategy u.Locators) ∧
    ((checkLocatorsRun s (.array entries)).2.filter isPageSourceRead).length
      = 1 ∧
    ((checkLocatorsRun s (.missing p)).2.filter isPageSourceRead).length = 0 ∧
    ((checkLocatorsRun s (.invalidJson msg)).2.filter
      isPageSourceRead).length = 0 ∧
    ((checkLocatorsRun s .notArray).2.filter isPageSourceRead).length = 0 := by
  have hmap : ∀ es : List UserLocatorEntry,
      (es.map (fun u =>
        SessionEvent.findElement u.LocatorStrategy u.Locators)).filter
        isPageSourceRead = [] := by
    intro es
    induction es with
    | nil => rfl
    | cons a t ih => simp [List.filter_cons, isPageSourceRead, ih]
  refine ⟨rfl, ?_, rfl, rfl, rfl⟩
  simp [checkLocatorsRun, List.filter_cons, isPageSourceRead, hmap entries]

end CheckLocators
